import Mathlib

/-!
# Verification of the Namada trusted-setup contributor flow

A shallow embedding of the two provided sources:

* `phase1-cli/src/bin/phase1.rs` — the contributor CLI: the contribution
  lifecycle (`do_contribute`), the queue-polling loop (`contribute`), and the
  heartbeat task spawned in `main`.
* `phase1-coordinator/src/rest.rs` — the coordinator REST endpoints and the
  `ResponseError` responder.

Machine/network effects are made explicit: network responses become
environment records, the wall clock becomes a `Nat`-indexed reading sequence,
and observable side effects (timestamp writes, signing calls, file writes,
requests, prints, the heartbeat abort) become entries of an `Event` trace.
-/

namespace Phase1

/-! ## Basic data model -/

/-- A byte buffer (each entry a byte value). -/
abbrev Bytes := List Nat

/-- Contributor keypair: public key string and secret signing key
(`KeyPair::pubkey` / `KeyPair::sigkey`). -/
structure KeyPair where
  pubkey : String
  sigkey : String
deriving DecidableEq, Repr

/-- A produced signature. The real signer (`Production::sign`) returns an
opaque string; the model keeps the key and message used so that statements
about *which* key signed *what* are expressible. -/
structure Signature where
  key : String
  message : String
deriving DecidableEq, Repr

/-- Modelled from the spec: the external signing collaborator
(`Production.sign(key, message)`), a pure function of key and message. -/
def Production.sign (key msg : String) : Signature := ⟨key, msg⟩

/-- Modelled from the spec: the opaque deterministic hash collaborator
(`calculate_hash` from setup-utils). Deterministic function of the buffer;
its concrete algorithm is external to the provided sources. -/
def calculate_hash (b : Bytes) : Bytes :=
  b.map (fun x => (x * 31 + 7) % 256)

/-- Lower-case hex digit. -/
def hexDigit (n : Nat) : Char :=
  if n < 10 then Char.ofNat (48 + n) else Char.ofNat (87 + n)

/-- Two-digit hex rendering of one byte. -/
def byteToHex (b : Nat) : String :=
  String.mk [hexDigit (b / 16 % 16), hexDigit (b % 16)]

/-- Hex rendering of a digest, as produced by the CLI `pretty_hash!` macro
(the macro's tab/newline grouping whitespace is elided; no claim depends on
the exact layout, only on the string being a function of the digest). -/
def pretty_hash (bytes : Bytes) : String :=
  String.join (bytes.map byteToHex)

/-- Locator of a contribution artifact (`ContributionLocator`): round height,
chunk id, contribution id. -/
structure ContributionLocator where
  round_height : Nat
  chunk_id : Nat
  contribution_id : Nat
deriving DecidableEq, Repr

/-- Locator of a contribution file signature
(`ContributionSignatureLocator`). -/
structure ContributionSignatureLocator where
  round_height : Nat
  chunk_id : Nat
  contribution_id : Nat
deriving DecidableEq, Repr

/-- Modelled from the spec: `LockedLocators`, the unit of work granted by a
successful lock request — only the two accessors the provided sources use
(`next_contribution`, `next_contribution_file_signature`) are modelled. -/
structure LockedLocators where
  next_contribution : ContributionLocator
  next_contribution_file_signature : ContributionSignatureLocator
deriving DecidableEq, Repr

/-- An addressable unit of ceremony work (`Task`). -/
structure Task where
  chunk_id : Nat
  contribution_id : Nat
deriving DecidableEq, Repr

/-- `Task::new(chunk_id, contribution_id)`. -/
def Task.new (c i : Nat) : Task := ⟨c, i⟩

/-- Modelled from the spec: display of a `Task` in error messages (exact
format external to the provided sources). -/
def Task.display (t : Task) : String :=
  "(" ++ toString t.chunk_id ++ ", " ++ toString t.contribution_id ++ ")"

/-- The cryptographic linkage between old and new challenge
(`ContributionState`): challenge hash, contribution (response) hash, optional
next-challenge hash. -/
structure ContributionState where
  challenge_hash : Bytes
  response_hash : Bytes
  next_challenge_hash : Option Bytes
deriving DecidableEq, Repr

/-- `ContributionState::new(challenge_hash, response_hash, next_challenge_hash)`. -/
def ContributionState.new (c r : Bytes) (n : Option Bytes) : ContributionState :=
  ⟨c, r, n⟩

/-- Modelled from the spec: the canonical message of a `ContributionState`
signed by the contributor (`ContributionState::signature_message`; the
concrete encoding lives in the coordinator crate, outside the provided
sources). A deterministic injective-enough function of the state. -/
def ContributionState.signature_message (s : ContributionState) : String :=
  String.join (s.challenge_hash.map byteToHex) ++ ":" ++
    String.join (s.response_hash.map byteToHex) ++
    (match s.next_challenge_hash with
     | none => ""
     | some h => ":" ++ String.join (h.map byteToHex))

/-- Proof the contributor authored a `ContributionState`
(`ContributionFileSignature`). -/
structure ContributionFileSignature where
  signature : Signature
  state : ContributionState
deriving DecidableEq, Repr

/-- `ContributionFileSignature::new(signature, state)`. -/
def ContributionFileSignature.new (s : Signature) (st : ContributionState) :
    ContributionFileSignature := ⟨s, st⟩

/-- The payload of the upload endpoint (`PostChunkRequest`, rest.rs). -/
structure PostChunkRequest where
  contribution_locator : ContributionLocator
  contribution : Bytes
  contribution_file_signature_locator : ContributionSignatureLocator
  contribution_file_signature : ContributionFileSignature
deriving DecidableEq, Repr

/-- `PostChunkRequest::new` as used by the CLI. -/
def PostChunkRequest.new (l : ContributionLocator) (c : Bytes)
    (sl : ContributionSignatureLocator) (fs : ContributionFileSignature) :
    PostChunkRequest := ⟨l, c, sl, fs⟩

/-! ## Timestamps and contribution info -/

/-- Modelled from the spec: the `ContributionTimeStamps` record (§3 of the
spec); instants are modelled as `Nat` clock readings, default value 0
(mirroring the Rust `Default` datetime). -/
structure ContributionTimeStamps where
  start_contribution : Nat := 0
  joined_queue : Nat := 0
  challenge_locked : Nat := 0
  challenge_downloaded : Nat := 0
  start_computation : Nat := 0
  end_computation : Nat := 0
  end_contribution : Nat := 0
deriving DecidableEq, Repr

/-- The timestamp fields written during a contribution attempt. -/
inductive TsField
  | joined_queue
  | challenge_locked
  | challenge_downloaded
  | start_computation
  | end_computation
  | end_contribution
deriving DecidableEq, Repr

/-- Modelled from the spec: the `ContributionInfo` record the contributor
reports (§3 of the spec; its struct definition lives in the coordinator
crate, outside the provided sources, but every field below is used by the
provided CLI source). -/
structure ContributionInfo where
  full_name : Option String := none
  email : Option String := none
  public_key : String := ""
  is_incentivized : Bool := false
  is_contest_participant : Bool := false
  ceremony_round : Nat := 0
  contribution_hash : String := ""
  contribution_hash_signature : Signature := ⟨"", ""⟩
  contributor_info_signature : Signature := ⟨"", ""⟩
  timestamps : ContributionTimeStamps := {}
deriving DecidableEq, Repr

/-! ## JSON model (serde_json as used on `ContributionInfo`) -/

/-- Atomic JSON values appearing in a serialized `ContributionInfo`. -/
inductive JsonAtom
  | null
  | str (s : String)
  | num (n : Nat)
  | boolean (b : Bool)
  | sig (s : Signature)
deriving DecidableEq, Repr

/-- A field value of the serialized record: an atom or a flat sub-object
(the `timestamps` sub-record). -/
inductive JsonField
  | atom (a : JsonAtom)
  | obj (fields : List (String × JsonAtom))
deriving DecidableEq, Repr

/-- Render an atom to JSON text. -/
def renderAtom : JsonAtom → String
  | JsonAtom.null => "null"
  | JsonAtom.str s => "\"" ++ s ++ "\""
  | JsonAtom.num n => toString n
  | JsonAtom.boolean b => if b then "true" else "false"
  | JsonAtom.sig s => "\"sig:" ++ s.key ++ ":" ++ s.message ++ "\""

/-- Render a flat object to JSON text. -/
def renderPairs (l : List (String × JsonAtom)) : String :=
  "\x7b" ++
    String.intercalate "," (l.map (fun p => "\"" ++ p.1 ++ "\":" ++ renderAtom p.2)) ++
    "\x7d"

/-- Render a field value to JSON text. -/
def renderField : JsonField → String
  | JsonField.atom a => renderAtom a
  | JsonField.obj l => renderPairs l

/-- Render a top-level object to JSON text (`serde_json::Value::to_string` /
`serde_json::to_vec`). -/
def renderObj (l : List (String × JsonField)) : String :=
  "\x7b" ++
    String.intercalate "," (l.map (fun p => "\"" ++ p.1 ++ "\":" ++ renderField p.2)) ++
    "\x7d"

/-- `serde_json::to_value` on a `ContributionTimeStamps`. -/
def jsonOfTimestamps (t : ContributionTimeStamps) : List (String × JsonAtom) :=
  [("start_contribution", JsonAtom.num t.start_contribution),
   ("joined_queue", JsonAtom.num t.joined_queue),
   ("challenge_locked", JsonAtom.num t.challenge_locked),
   ("challenge_downloaded", JsonAtom.num t.challenge_downloaded),
   ("start_computation", JsonAtom.num t.start_computation),
   ("end_computation", JsonAtom.num t.end_computation),
   ("end_contribution", JsonAtom.num t.end_contribution)]

/-- `serde_json::to_value` on a `ContributionInfo`. -/
def jsonOfInfo (i : ContributionInfo) : List (String × JsonField) :=
  [("full_name", JsonField.atom (match i.full_name with
      | none => JsonAtom.null
      | some s => JsonAtom.str s)),
   ("email", JsonField.atom (match i.email with
      | none => JsonAtom.null
      | some s => JsonAtom.str s)),
   ("public_key", JsonField.atom (JsonAtom.str i.public_key)),
   ("is_incentivized", JsonField.atom (JsonAtom.boolean i.is_incentivized)),
   ("is_contest_participant", JsonField.atom (JsonAtom.boolean i.is_contest_participant)),
   ("ceremony_round", JsonField.atom (JsonAtom.num i.ceremony_round)),
   ("contribution_hash", JsonField.atom (JsonAtom.str i.contribution_hash)),
   ("contribution_hash_signature", JsonField.atom (JsonAtom.sig i.contribution_hash_signature)),
   ("contributor_info_signature", JsonField.atom (JsonAtom.sig i.contributor_info_signature)),
   ("timestamps", JsonField.obj (jsonOfTimestamps i.timestamps))]

/-- `value[key].take()`: replace the named field's value by JSON `null`
(serde's `Value::take` leaves `Null` behind). -/
def jsonTake (l : List (String × JsonField)) (key : String) :
    List (String × JsonField) :=
  l.map (fun p => if p.1 = key then (p.1, JsonField.atom JsonAtom.null) else p)

/-! ## Observable events of the contributor flow -/

/-- Content of a local file write. -/
inductive FileContent
  | bytes (b : Bytes)
  | text (s : String)
deriving DecidableEq, Repr

/-- Observable side effects of the contributor flow, in program order.
`doContribute ok` abstracts one whole `do_contribute` call in the polling
loop (its internal events are modelled separately by `do_contribute`);
`panicked` is the `expect`-driven process abort. -/
inductive Event
  | joinQueue
  | getStatus
  | lockChunk
  | getChunkReq
  | getChallenge
  | stamp (f : TsField) (t : Nat)
  | signEvt (key msg : String)
  | writeFile (name : String) (content : FileContent)
  | postChunk (req : PostChunkRequest)
  | postContributeChunk (chunk_id : Nat)
  | postContributionInfo (info : ContributionInfo)
  | printQueue (position size est : Nat)
  | printDone
  | printOther
  | sleep (d : Nat)
  | doContribute (ok : Bool)
  | abortHeartbeat
  | panicked
deriving DecidableEq, Repr

/-- Modelled from the spec: `UPDATE_TIME`, the fixed polling/heartbeat
interval (its concrete value lives in the coordinator crate, outside the
provided sources; no claim depends on the value). -/
def UPDATE_TIME : Nat := 60

/-! ## The contribution lifecycle (`do_contribute`, phase1.rs lines 187-262)

The model covers the success path: every network request's successful
response is supplied by a `DoContributeEnv`. Any failure aborts the attempt
by `?`-propagation before any later observable action, so properties of
*completed* calls are stated on this path. -/

/-- Successful responses of the coordinator and the computation collaborator
during one `do_contribute` call. -/
structure DoContributeEnv where
  /-- response of `post_lock_chunk` -/
  locked_locators : LockedLocators
  /-- response of `get_chunk` -/
  task : Task
  /-- response of `get_challenge` -/
  challenge : Bytes
  /-- the Computation collaborator: challenge bytes to contribution bytes -/
  compute : Bytes → Bytes

/-- `do_contribute` (phase1.rs lines 187-262), success path. `clock` is the
sequence of wall-clock readings; the call consumes readings `k0`..`k0+4` for
the five `Utc::now()` calls, in program order. Returns the final
`ContributionInfo` and the trace of observable events. -/
def do_contribute (env : DoContributeEnv) (keypair : KeyPair)
    (info0 : ContributionInfo) (clock : Nat → Nat) (k0 : Nat) :
    ContributionInfo × List Event :=
  let t_locked := clock k0
  let info1 := { info0 with timestamps := { info0.timestamps with challenge_locked := t_locked } }
  let response_locator := env.locked_locators.next_contribution
  let round_height := response_locator.round_height
  let info2 := { info1 with ceremony_round := round_height }
  let task := env.task
  let challenge := env.challenge
  let t_downloaded := clock (k0 + 1)
  let info3 := { info2 with timestamps := { info2.timestamps with challenge_downloaded := t_downloaded } }
  let challenge_hash := calculate_hash challenge
  let t_start := clock (k0 + 2)
  let info4 := { info3 with timestamps := { info3.timestamps with start_computation := t_start } }
  let contribution := env.compute challenge
  let t_end := clock (k0 + 3)
  let info5 := { info4 with timestamps := { info4.timestamps with end_computation := t_end } }
  let contribution_hash := calculate_hash contribution
  let contribution_hash_str := pretty_hash contribution_hash
  let info6 := { info5 with contribution_hash := contribution_hash_str }
  let hashSig := Production.sign info6.public_key info6.contribution_hash
  let info7 := { info6 with contribution_hash_signature := hashSig }
  let contribution_state := ContributionState.new challenge_hash contribution_hash none
  let signature := Production.sign keypair.sigkey contribution_state.signature_message
  let contribution_file_signature := ContributionFileSignature.new signature contribution_state
  let post_chunk_req := PostChunkRequest.new env.locked_locators.next_contribution
      contribution env.locked_locators.next_contribution_file_signature
      contribution_file_signature
  let t_endc := clock (k0 + 4)
  let info8 := { info7 with timestamps := { info7.timestamps with end_contribution := t_endc } }
  let serde1 := jsonTake (jsonOfInfo info8) "contributor_info_signature"
  let serialized := renderObj serde1
  let infoSig := Production.sign info8.public_key serialized
  let info9 := { info8 with contributor_info_signature := infoSig }
  (info9,
    [Event.lockChunk,
     Event.stamp TsField.challenge_locked t_locked,
     Event.getChunkReq,
     Event.getChallenge,
     Event.stamp TsField.challenge_downloaded t_downloaded,
     Event.writeFile ("namada_challenge_round_" ++ toString round_height ++ ".params")
       (FileContent.bytes challenge),
     Event.stamp TsField.start_computation t_start,
     Event.stamp TsField.end_computation t_end,
     Event.signEvt info6.public_key info6.contribution_hash,
     Event.signEvt keypair.sigkey contribution_state.signature_message,
     Event.postChunk post_chunk_req,
     Event.postContributeChunk task.chunk_id,
     Event.stamp TsField.end_contribution t_endc,
     Event.signEvt info8.public_key serialized,
     Event.writeFile ("namada_contributor_info_round_" ++ toString info9.ceremony_round ++ ".json")
       (FileContent.text (renderObj (jsonOfInfo info9))),
     Event.postContributionInfo info9])

/-- One completed contribution attempt as performed by `contribute`
(phase1.rs lines 264-294): join the queue, stamp `joined_queue`
(clock reading 0), then — once the status poll reports `Round` — run
`do_contribute` (clock readings 1..5). The status polls in between read no
clock and are modelled separately by `pollLoop`. -/
def contributeAttempt (env : DoContributeEnv) (keypair : KeyPair)
    (info0 : ContributionInfo) (clock : Nat → Nat) :
    ContributionInfo × List Event :=
  let t_joined := clock 0
  let info1 := { info0 with timestamps := { info0.timestamps with joined_queue := t_joined } }
  let r := do_contribute env keypair info1 clock 1
  (r.1, Event.joinQueue :: Event.stamp TsField.joined_queue t_joined :: r.2)

/-! ## The queue polling loop (`contribute`, phase1.rs lines 271-306) -/

/-- Coordinator's classification of a contributor (`ContributorStatus`). -/
inductive ContributorStatus
  | queue (position size : Nat)
  | round
  | finished
  | other
deriving DecidableEq, Repr

/-- The polling loop of `contribute` run against a trace of status-poll
responses. `cycles n` tells whether the `n`-th `do_contribute` call
succeeds (a failure hits `expect("Contribution failed")` and panics).
An exhausted trace models a cut-off of a still-running loop. -/
def pollLoop (cycles : Nat → Bool) : List ContributorStatus → Nat → List Event
  | [], _ => []
  | status :: rest, n =>
    Event.getStatus ::
      match status with
      | ContributorStatus.queue p sz =>
          Event.printQueue p sz (p * 5) :: Event.sleep UPDATE_TIME ::
            pollLoop cycles rest n
      | ContributorStatus.round =>
          if cycles n then
            Event.doContribute true :: Event.abortHeartbeat ::
              Event.sleep UPDATE_TIME :: pollLoop cycles rest (n + 1)
          else
            [Event.doContribute false, Event.panicked]
      | ContributorStatus.finished => [Event.printDone]
      | ContributorStatus.other =>
          Event.printOther :: Event.sleep UPDATE_TIME :: pollLoop cycles rest n

/-! ## The heartbeat task and `main` (phase1.rs lines 354-369) -/

/-- Status of the detached heartbeat task after consuming a list of
`post_heartbeat` outcomes. -/
inductive TaskOutcome
  | running
  | failed
deriving DecidableEq, Repr

/-- The heartbeat task body: `loop { post_heartbeat(..).await?; sleep }`.
A transport failure exits the loop with the error (via `?`); otherwise the
loop keeps running. -/
def heartbeatRun : List Bool → TaskOutcome
  | [] => TaskOutcome.running
  | true :: rest => heartbeatRun rest
  | false :: _ => TaskOutcome.failed

/-- One run of the `Contribute` arm of `main`: the heartbeat task is spawned
detached (its `JoinHandle` result is never awaited — only `abort` is ever
called on the handle) and `contribute` runs alongside it. -/
structure ProcessRun where
  contribute_events : List Event
  heartbeat_status : TaskOutcome
deriving DecidableEq, Repr

/-- `main`'s `Contribute` arm: the contribute flow's events and the heartbeat
task's status are produced independently; nothing in the flow consumes the
heartbeat task's result. -/
def mainContribute (hb : List Bool) (cycles : Nat → Bool)
    (trace : List ContributorStatus) : ProcessRun :=
  { contribute_events := pollLoop cycles trace 0
    heartbeat_status := heartbeatRun hb }

/-! ## Coordinator REST endpoints (rest.rs) -/

/-- A ceremony participant (`Participant::new_contributor(pubkey)`). -/
structure Participant where
  address : String
deriving DecidableEq, Repr

/-- `Participant::new_contributor`. -/
def Participant.new_contributor (s : String) : Participant := ⟨s⟩

/-- Modelled from the spec: the coordinator-side per-participant record; the
only part the provided sources consult is the pending-task set. -/
structure ParticipantInfo where
  pending_tasks : List Task
deriving DecidableEq, Repr

/-- Modelled from the spec: the coordinator's ceremony state as seen through
`state().current_participant_info(..)` — a lookup from participant to info. -/
structure CoordinatorState where
  participants : List (Participant × ParticipantInfo)
deriving DecidableEq, Repr

/-- `state().current_participant_info(&contributor)`. -/
def CoordinatorState.current_participant_info (st : CoordinatorState)
    (p : Participant) : Option ParticipantInfo :=
  (st.participants.find? (fun q => q.1 == p)).map (fun q => q.2)

/-- Modelled from the spec: an opaque coordinator-internal error
(`CoordinatorError`), carried by message. -/
structure CoordinatorError where
  message : String
deriving DecidableEq, Repr

/-- The REST error taxonomy (`ResponseError`, rest.rs lines 28-36). -/
inductive ResponseError
  | coordinatorError (e : CoordinatorError)
  | unknownContributor (pubkey : String)
  | unknownTask (t : Task)
deriving DecidableEq, Repr

/-- The `thiserror`-derived `Display` messages of `ResponseError`
(rest.rs lines 30-35). -/
def ResponseError.display : ResponseError → String
  | ResponseError.coordinatorError e => "Coordinator failed: " ++ e.message
  | ResponseError.unknownContributor pk =>
      "Could not find contributor with public key " ++ pk
  | ResponseError.unknownTask t =>
      "Could not find the provided Task " ++ t.display ++ " in coordinator state"

/-- Content-type header values used by the responder. -/
inductive ContentType
  | json
  | plainText
deriving DecidableEq, Repr

/-- An HTTP response as built by the responder. -/
structure HttpResponse where
  status : Nat
  content_type : ContentType
  body : String
deriving DecidableEq, Repr

/-- `Responder::respond_to` for `ResponseError` (rest.rs lines 38-47):
status `InternalServerError` (500), a `ContentType::JSON` header, and a
sized body holding exactly the error's display string. -/
def ResponseError.respond_to (e : ResponseError) : HttpResponse :=
  { status := 500
    content_type := ContentType.json
    body := e.display }

/-- The request body of the download endpoint (`ChunkRequest`). -/
structure ChunkRequest where
  pubkey : String
  locked_locators : LockedLocators
deriving DecidableEq, Repr

/-- The `Task` the download endpoint derives from the request's locked
locators (rest.rs lines 118-121). -/
def chunkRequestTask (req : ChunkRequest) : Task :=
  Task.new req.locked_locators.next_contribution.chunk_id
    req.locked_locators.next_contribution.contribution_id

/-- `get_chunk` (rest.rs lines 114-132): derive the task from the locked
locators, look the contributor up, and return the task exactly when it is
pending for that contributor. -/
def get_chunk (st : CoordinatorState) (req : ChunkRequest) :
    Except ResponseError Task :=
  let contributor := Participant.new_contributor req.pubkey
  let task := chunkRequestTask req
  match st.current_participant_info contributor with
  | some info =>
      if task ∈ info.pending_tasks then Except.ok task
      else Except.error (ResponseError.unknownTask task)
  | none => Except.error (ResponseError.unknownContributor req.pubkey)

/-- Modelled from the spec: the coordinator storage the upload endpoint
writes into — written contributions and written contribution file
signatures, addressed by locator. -/
structure CoordinatorStorage where
  contributions : List (ContributionLocator × Bytes)
  signatures : List (ContributionSignatureLocator × ContributionFileSignature)
deriving DecidableEq, Repr

/-- `post_contribution_chunk` (rest.rs lines 136-158), parameterized by the
coordinator-internal writers (`write_contribution`,
`write_contribution_file_signature`, both outside the provided sources):
first write the contribution bytes, then — in a second, separate step — the
contribution file signature; each failure maps to a `CoordinatorError`
response, and a failure of the second step does not undo the first. -/
def post_contribution_chunk
    (write_contribution :
      CoordinatorStorage → ContributionLocator → Bytes →
        Except CoordinatorError CoordinatorStorage)
    (write_signature :
      CoordinatorStorage → ContributionSignatureLocator →
        ContributionFileSignature → Except CoordinatorError CoordinatorStorage)
    (st : CoordinatorStorage) (req : PostChunkRequest) :
    CoordinatorStorage × Except ResponseError Unit :=
  match write_contribution st req.contribution_locator req.contribution with
  | Except.error e => (st, Except.error (ResponseError.coordinatorError e))
  | Except.ok st1 =>
    match write_signature st1 req.contribution_file_signature_locator
        req.contribution_file_signature with
    | Except.ok st2 => (st2, Except.ok ())
    | Except.error e => (st1, Except.error (ResponseError.coordinatorError e))

/-- The natural contribution writer: record the bytes at the locator
(used to instantiate the abstract writer in concrete runs). -/
def writeContributionDefault (st : CoordinatorStorage)
    (loc : ContributionLocator) (b : Bytes) :
    Except CoordinatorError CoordinatorStorage :=
  Except.ok { st with contributions := (loc, b) :: st.contributions }

/-- A signature writer that fails (models a storage error on the second
write of the upload endpoint). -/
def writeSignatureFailing (e : CoordinatorError) (_st : CoordinatorStorage)
    (_loc : ContributionSignatureLocator) (_fs : ContributionFileSignature) :
    Except CoordinatorError CoordinatorStorage :=
  Except.error e

/-! ## Trace observations -/

/-- Number of `abortHeartbeat` calls in a trace. -/
def countAborts : List Event → Nat
  | [] => 0
  | Event.abortHeartbeat :: rest => countAborts rest + 1
  | _ :: rest => countAborts rest

/-- Number of successfully completed `do_contribute` cycles in a trace. -/
def countCycleSuccesses : List Event → Nat
  | [] => 0
  | Event.doContribute true :: rest => countCycleSuccesses rest + 1
  | _ :: rest => countCycleSuccesses rest

/-- `true` iff every `abortHeartbeat` in the trace comes immediately after a
successfully completed `do_contribute` cycle (in particular, no abort ever
precedes the first completed cycle). -/
def abortsAfterSuccess : List Event → Bool
  | [] => true
  | Event.doContribute true :: Event.abortHeartbeat :: rest => abortsAfterSuccess rest
  | Event.abortHeartbeat :: _ => false
  | _ :: rest => abortsAfterSuccess rest

/-- Number of timestamp writes to field `f` in a trace. -/
def countStamps (f : TsField) : List Event → Nat
  | [] => 0
  | Event.stamp g _ :: rest =>
      (if g = f then 1 else 0) + countStamps f rest
  | _ :: rest => countStamps f rest

/-- The polling loop reached its normal `Finished` exit and never panicked. -/
def completedNormally (evs : List Event) : Bool :=
  evs.contains Event.printDone && !(evs.contains Event.panicked)

/-! ## Concrete inputs used by witnesses -/

/-- The pending task of the concrete coordinator state below. -/
def taskW : Task := Task.new 0 2

/-- A concrete coordinator state with one contributor holding one pending task. -/
def stW : CoordinatorState :=
  ⟨[(Participant.new_contributor "pk", ⟨[taskW]⟩)]⟩

/-- A download request whose derived task is pending. -/
def reqW : ChunkRequest := ⟨"pk", ⟨⟨1, 0, 2⟩, ⟨1, 0, 2⟩⟩⟩

/-- A download request whose derived task is not pending. -/
def reqW2 : ChunkRequest := ⟨"pk", ⟨⟨1, 3, 4⟩, ⟨1, 3, 4⟩⟩⟩

/-- A download request from an unknown public key. -/
def reqW3 : ChunkRequest := ⟨"other", ⟨⟨1, 0, 2⟩, ⟨1, 0, 2⟩⟩⟩

/-- A concrete upload request. -/
def reqU : PostChunkRequest :=
  ⟨⟨1, 0, 2⟩, [9, 8, 7], ⟨1, 0, 2⟩, ⟨⟨"sec", "msg"⟩, ⟨[1], [2], none⟩⟩⟩

/-- A concrete storage error for the failing signature writer. -/
def errU : CoordinatorError := ⟨"storage failure"⟩

/-- A concrete contribution environment. -/
def envW : DoContributeEnv :=
  { locked_locators := ⟨⟨1, 0, 2⟩, ⟨1, 0, 2⟩⟩
    task := ⟨0, 2⟩
    challenge := [1, 2, 3]
    compute := fun c => 0 :: c }

/-- A concrete keypair. -/
def kpW : KeyPair := ⟨"pub", "sec"⟩

/-! ## Claims -/

/-- C7: for every `ResponseError` value (`CoordinatorError`,
`UnknownContributor`, or `UnknownTask`), the coordinator's HTTP response
carries status 500 and a body consisting exactly of the error's display
message — no structured error payload. -/
theorem claim_C7_error_responses (e : ResponseError) :
    e.respond_to.status = 500 ∧ e.respond_to.body = e.display :=
  ⟨rfl, rfl⟩

/-- C8: on every poll observing `Queue(position, size)`, the loop prints the
position, the queue size, and an estimated wait of `position * 5` minutes,
then sleeps the fixed polling interval `UPDATE_TIME` before re-polling. -/
theorem claim_C8_queue_observation (cycles : Nat → Bool) (p sz : Nat)
    (rest : List ContributorStatus) (n : Nat) :
    pollLoop cycles (ContributorStatus.queue p sz :: rest) n =
      Event.getStatus :: Event.printQueue p sz (p * 5) ::
        Event.sleep UPDATE_TIME :: pollLoop cycles rest n := by
  simp [pollLoop]

/-- C3: `get_chunk` derives the task from the locked locators' next
contribution locator and returns it exactly when it is pending for the
requesting contributor; a known contributor with a non-pending task gets
`UnknownTask`, and an unknown public key gets `UnknownContributor`. -/
theorem claim_C3_get_chunk (st : CoordinatorState) (req : ChunkRequest) :
    (∀ t, get_chunk st req = Except.ok t ↔
      (t = chunkRequestTask req ∧
        ∃ info,
          st.current_participant_info (Participant.new_contributor req.pubkey) = some info ∧
          chunkRequestTask req ∈ info.pending_tasks)) ∧
    (∀ info,
      st.current_participant_info (Participant.new_contributor req.pubkey) = some info →
      chunkRequestTask req ∉ info.pending_tasks →
      get_chunk st req = Except.error (ResponseError.unknownTask (chunkRequestTask req))) ∧
    (st.current_participant_info (Participant.new_contributor req.pubkey) = none →
      get_chunk st req = Except.error (ResponseError.unknownContributor req.pubkey)) := by
  refine ⟨?_, ?_, ?_⟩
  · intro t
    unfold get_chunk
    cases h : st.current_participant_info (Participant.new_contributor req.pubkey) with
    | none => simp [h]
    | some info =>
      by_cases hm : chunkRequestTask req ∈ info.pending_tasks
      · simp only [h, hm, if_pos, Except.ok.injEq]
        constructor
        · intro ht
          exact ⟨ht.symm, info, rfl, hm⟩
        · intro ht
          exact ht.1.symm
      · simp only [h, hm, if_neg, not_false_iff, reduceCtorEq, false_iff, not_and]
        intro ht
        rintro ⟨info2, hinfo2, hmem2⟩
        cases Option.some.injEq info info2 ▸ hinfo2 with
        | refl => exact hm hmem2
  · intro info hinfo hm
    simp [get_chunk, hinfo, hm]
  · intro hnone
    simp [get_chunk, hnone]

/-- Exercises C3 at concrete inputs: a pending task is returned, a
non-pending task yields `UnknownTask`, an unknown key yields
`UnknownContributor`. -/
theorem claim_C3_get_chunk_witness :
    get_chunk stW reqW = Except.ok taskW ∧
    get_chunk stW reqW2 =
      Except.error (ResponseError.unknownTask (chunkRequestTask reqW2)) ∧
    get_chunk stW reqW3 = Except.error (ResponseError.unknownContributor "other") :=
  ⟨((claim_C3_get_chunk stW reqW).1 taskW).mpr
      ⟨by decide, ⟨⟨[taskW]⟩, by decide, by decide⟩⟩,
   (claim_C3_get_chunk stW reqW2).2.1 ⟨[taskW]⟩ (by decide) (by decide),
   (claim_C3_get_chunk stW reqW3).2.2 (by decide)⟩

/-- C10: the upload endpoint is not atomic on error — when the contribution
write succeeds (yielding state `st1`) and the signature write then fails,
the endpoint returns a `CoordinatorError` response while the contribution
bytes remain written in the returned state. -/
theorem claim_C10_upload_not_atomic
    (wc : CoordinatorStorage → ContributionLocator → Bytes →
      Except CoordinatorError CoordinatorStorage)
    (ws : CoordinatorStorage → ContributionSignatureLocator →
      ContributionFileSignature → Except CoordinatorError CoordinatorStorage)
    (st st1 : CoordinatorStorage) (req : PostChunkRequest) (e : CoordinatorError)
    (h1 : wc st req.contribution_locator req.contribution = Except.ok st1)
    (h2 : ws st1 req.contribution_file_signature_locator
      req.contribution_file_signature = Except.error e)
    (h3 : (req.contribution_locator, req.contribution) ∈ st1.contributions) :
    post_contribution_chunk wc ws st req =
      (st1, Except.error (ResponseError.coordinatorError e)) ∧
    (req.contribution_locator, req.contribution) ∈
      (post_contribution_chunk wc ws st req).1.contributions := by
  have hres : post_contribution_chunk wc ws st req =
      (st1, Except.error (ResponseError.coordinatorError e)) := by
    simp only [post_contribution_chunk, h1, h2]
  exact ⟨hres, by rw [hres]; exact h3⟩

/-- Exercises C10 at a concrete input: a succeeding contribution writer and
a failing signature writer leave the uploaded bytes in the returned state
alongside the error. -/
theorem claim_C10_upload_not_atomic_witness :
    post_contribution_chunk writeContributionDefault (writeSignatureFailing errU)
      ⟨[], []⟩ reqU =
      (⟨[(reqU.contribution_locator, reqU.contribution)], []⟩,
        Except.error (ResponseError.coordinatorError errU)) ∧
    (reqU.contribution_locator, reqU.contribution) ∈
      (post_contribution_chunk writeContributionDefault (writeSignatureFailing errU)
        ⟨[], []⟩ reqU).1.contributions :=
  claim_C10_upload_not_atomic writeContributionDefault (writeSignatureFailing errU)
    ⟨[], []⟩ ⟨[(reqU.contribution_locator, reqU.contribution)], []⟩ reqU errU
    rfl rfl (by decide)

/-- C1 (counterexample): the claim "the heartbeat handle is aborted exactly
once per run" fails on a run whose status trace is
`[Round, Round, Finished]` with both contribution cycles succeeding — the
loop re-enters the `Round` arm and aborts the handle a second time. -/
theorem claim_C1_counterexample :
    countAborts (pollLoop (fun _ => true)
      [ContributorStatus.round, ContributorStatus.round,
        ContributorStatus.finished] 0) ≠ 1 := by decide

/-- C1 (amended): in every run of the polling loop, the heartbeat handle is
aborted exactly once per successfully completed contribution cycle (hence
exactly once in a run with a single `Round` observation), and every abort
occurs immediately after the full cycle returns successfully — never
before. -/
theorem claim_C1_abort_per_cycle (cycles : Nat → Bool)
    (trace : List ContributorStatus) (n : Nat) :
    countAborts (pollLoop cycles trace n) =
      countCycleSuccesses (pollLoop cycles trace n) ∧
    abortsAfterSuccess (pollLoop cycles trace n) = true := by
  induction trace generalizing n with
  | nil => simp [pollLoop, countAborts, countCycleSuccesses, abortsAfterSuccess]
  | cons s rest ih =>
    cases s with
    | queue p sz =>
      simpa [pollLoop, countAborts, countCycleSuccesses, abortsAfterSuccess]
        using ih n
    | round =>
      by_cases hc : cycles n
      · simpa [pollLoop, hc, countAborts, countCycleSuccesses, abortsAfterSuccess]
          using ih (n + 1)
      · simp [pollLoop, hc, countAborts, countCycleSuccesses, abortsAfterSuccess]
    | finished =>
      simp [pollLoop, countAborts, countCycleSuccesses, abortsAfterSuccess]
    | other =>
      simpa [pollLoop, countAborts, countCycleSuccesses, abortsAfterSuccess]
        using ih n

/-- C5 (counterexample): the claim "a failed heartbeat request is fatal to
the whole process" fails on a concrete run — the heartbeat task's very first
request fails, yet the contribute flow runs a full successful cycle and
reaches its normal `Finished` exit. -/
theorem claim_C5_counterexample :
    (mainContribute [false] (fun _ => true)
      [ContributorStatus.round, ContributorStatus.finished]).heartbeat_status =
        TaskOutcome.failed ∧
    completedNormally (mainContribute [false] (fun _ => true)
      [ContributorStatus.round, ContributorStatus.finished]).contribute_events =
        true := by
  exact ⟨rfl, by decide⟩

/-- C5 (amended): a transport error in the heartbeat task terminates only
the heartbeat task itself — its loop exits with the error, which is never
caught nor awaited — while the contribute flow's behavior is entirely
independent of the heartbeat outcomes. -/
theorem claim_C5_heartbeat_failure_isolated (hb hb2 : List Bool)
    (cycles : Nat → Bool) (trace : List ContributorStatus)
    (h : false ∈ hb) :
    (mainContribute hb cycles trace).heartbeat_status = TaskOutcome.failed ∧
    (mainContribute hb cycles trace).contribute_events =
      (mainContribute hb2 cycles trace).contribute_events := by
  refine ⟨?_, rfl⟩
  show heartbeatRun hb = TaskOutcome.failed
  induction hb with
  | nil => cases h
  | cons b rest ih =>
    cases b with
    | false => rfl
    | true =>
      have : false ∈ rest := by
        rcases List.mem_cons.mp h with h1 | h2
        · cases h1
        · exact h2
      simpa [heartbeatRun] using ih this

/-- Exercises C5 (amended) at a concrete input: one failed heartbeat, two
different heartbeat histories, same contribute behavior. -/
theorem claim_C5_heartbeat_failure_isolated_witness :
    (mainContribute [false] (fun _ => true)
      [ContributorStatus.finished]).heartbeat_status = TaskOutcome.failed ∧
    (mainContribute [false] (fun _ => true)
      [ContributorStatus.finished]).contribute_events =
    (mainContribute [true, true] (fun _ => true)
      [ContributorStatus.finished]).contribute_events :=
  claim_C5_heartbeat_failure_isolated [false] [true, true] (fun _ => true)
    [ContributorStatus.finished] (by decide)

/-- C2: in every completed contribution attempt (join queue, then a
successful `do_contribute`), each of the six `Timestamps` fields is written
exactly once, and — for any non-decreasing wall clock — the written values
are non-decreasing in the order joined_queue ≤ challenge_locked ≤
challenge_downloaded ≤ start_computation ≤ end_computation ≤
end_contribution. -/
theorem claim_C2_timestamps (env : DoContributeEnv) (kp : KeyPair)
    (info0 : ContributionInfo) (clock : Nat → Nat) (h : Monotone clock) :
    countStamps TsField.joined_queue (contributeAttempt env kp info0 clock).2 = 1 ∧
    countStamps TsField.challenge_locked (contributeAttempt env kp info0 clock).2 = 1 ∧
    countStamps TsField.challenge_downloaded (contributeAttempt env kp info0 clock).2 = 1 ∧
    countStamps TsField.start_computation (contributeAttempt env kp info0 clock).2 = 1 ∧
    countStamps TsField.end_computation (contributeAttempt env kp info0 clock).2 = 1 ∧
    countStamps TsField.end_contribution (contributeAttempt env kp info0 clock).2 = 1 ∧
    (contributeAttempt env kp info0 clock).1.timestamps.joined_queue ≤
      (contributeAttempt env kp info0 clock).1.timestamps.challenge_locked ∧
    (contributeAttempt env kp info0 clock).1.timestamps.challenge_locked ≤
      (contributeAttempt env kp info0 clock).1.timestamps.challenge_downloaded ∧
    (contributeAttempt env kp info0 clock).1.timestamps.challenge_downloaded ≤
      (contributeAttempt env kp info0 clock).1.timestamps.start_computation ∧
    (contributeAttempt env kp info0 clock).1.timestamps.start_computation ≤
      (contributeAttempt env kp info0 clock).1.timestamps.end_computation ∧
    (contributeAttempt env kp info0 clock).1.timestamps.end_computation ≤
      (contributeAttempt env kp info0 clock).1.timestamps.end_contribution := by
  refine ⟨?_, ?_, ?_, ?_, ?_, ?_, ?_, ?_, ?_, ?_, ?_⟩
  · simp [contributeAttempt, do_contribute, countStamps]
  · simp [contributeAttempt, do_contribute, countStamps]
  · simp [contributeAttempt, do_contribute, countStamps]
  · simp [contributeAttempt, do_contribute, countStamps]
  · simp [contributeAttempt, do_contribute, countStamps]
  · simp [contributeAttempt, do_contribute, countStamps]
  · simpa [contributeAttempt, do_contribute] using h (show (0 : Nat) ≤ 1 by omega)
  · simpa [contributeAttempt, do_contribute] using h (show (1 : Nat) ≤ 2 by omega)
  · simpa [contributeAttempt, do_contribute] using h (show (2 : Nat) ≤ 3 by omega)
  · simpa [contributeAttempt, do_contribute] using h (show (3 : Nat) ≤ 4 by omega)
  · simpa [contributeAttempt, do_contribute] using h (show (4 : Nat) ≤ 5 by omega)

/-- Exercises C2 at a concrete input (identity clock). -/
theorem claim_C2_timestamps_witness :
    countStamps TsField.joined_queue (contributeAttempt envW kpW {} (fun n => n)).2 = 1 ∧
    countStamps TsField.challenge_locked (contributeAttempt envW kpW {} (fun n => n)).2 = 1 ∧
    countStamps TsField.challenge_downloaded (contributeAttempt envW kpW {} (fun n => n)).2 = 1 ∧
    countStamps TsField.start_computation (contributeAttempt envW kpW {} (fun n => n)).2 = 1 ∧
    countStamps TsField.end_computation (contributeAttempt envW kpW {} (fun n => n)).2 = 1 ∧
    countStamps TsField.end_contribution (contributeAttempt envW kpW {} (fun n => n)).2 = 1 ∧
    (contributeAttempt envW kpW {} (fun n => n)).1.timestamps.joined_queue ≤
      (contributeAttempt envW kpW {} (fun n => n)).1.timestamps.challenge_locked ∧
    (contributeAttempt envW kpW {} (fun n => n)).1.timestamps.challenge_locked ≤
      (contributeAttempt envW kpW {} (fun n => n)).1.timestamps.challenge_downloaded ∧
    (contributeAttempt envW kpW {} (fun n => n)).1.timestamps.challenge_downloaded ≤
      (contributeAttempt envW kpW {} (fun n => n)).1.timestamps.start_computation ∧
    (contributeAttempt envW kpW {} (fun n => n)).1.timestamps.start_computation ≤
      (contributeAttempt envW kpW {} (fun n => n)).1.timestamps.end_computation ∧
    (contributeAttempt envW kpW {} (fun n => n)).1.timestamps.end_computation ≤
      (contributeAttempt envW kpW {} (fun n => n)).1.timestamps.end_contribution :=
  claim_C2_timestamps envW kpW {} (fun n => n) (fun _ _ hab => hab)

/-- C4: in every successful `do_contribute` call, the uploaded
`ContributionState` is built from exactly the challenge hash and the
contribution hash with no next-challenge hash, and the
`ContributionFileSignature` is the signature of that state's canonical
message under the contributor's secret signing key. -/
theorem claim_C4_contribution_state (env : DoContributeEnv) (kp : KeyPair)
    (info0 : ContributionInfo) (clock : Nat → Nat) (k0 : Nat) :
    ∃ req, Event.postChunk req ∈ (do_contribute env kp info0 clock k0).2 ∧
      req.contribution_file_signature.state =
        ContributionState.new (calculate_hash env.challenge)
          (calculate_hash (env.compute env.challenge)) none ∧
      req.contribution_file_signature.state.next_challenge_hash = none ∧
      req.contribution_file_signature.signature =
        Production.sign kp.sigkey
          (ContributionState.new (calculate_hash env.challenge)
            (calculate_hash (env.compute env.challenge)) none).signature_message := by
  refine ⟨PostChunkRequest.new env.locked_locators.next_contribution
      (env.compute env.challenge)
      env.locked_locators.next_contribution_file_signature
      (ContributionFileSignature.new
        (Production.sign kp.sigkey
          (ContributionState.new (calculate_hash env.challenge)
            (calculate_hash (env.compute env.challenge)) none).signature_message)
        (ContributionState.new (calculate_hash env.challenge)
          (calculate_hash (env.compute env.challenge)) none)),
    ?_, rfl, rfl, rfl⟩
  simp [do_contribute]

/-- C9: in every successful `do_contribute` call, the contribution-hash
signature and the contributor-info signature are produced with the
contributor's *public key string* as the signing-key argument, while the
uploaded `ContributionFileSignature` is produced with the secret signing
key. -/
theorem claim_C9_signing_key_arguments (env : DoContributeEnv) (kp : KeyPair)
    (info0 : ContributionInfo) (clock : Nat → Nat) (k0 : Nat) :
    (do_contribute env kp info0 clock k0).1.contribution_hash_signature.key =
      info0.public_key ∧
    (do_contribute env kp info0 clock k0).1.contributor_info_signature.key =
      info0.public_key ∧
    ∃ req, Event.postChunk req ∈ (do_contribute env kp info0 clock k0).2 ∧
      req.contribution_file_signature.signature.key = kp.sigkey := by
  refine ⟨by simp [do_contribute, Production.sign], by simp [do_contribute, Production.sign], ?_⟩
  refine ⟨PostChunkRequest.new env.locked_locators.next_contribution
      (env.compute env.challenge)
      env.locked_locators.next_contribution_file_signature
      (ContributionFileSignature.new
        (Production.sign kp.sigkey
          (ContributionState.new (calculate_hash env.challenge)
            (calculate_hash (env.compute env.challenge)) none).signature_message)
        (ContributionState.new (calculate_hash env.challenge)
          (calculate_hash (env.compute env.challenge)) none)),
    ?_, rfl⟩
  simp [do_contribute]

/-- C6: in every successful `do_contribute` call, the final record signature
is computed over the JSON serialization of the `ContributionInfo` with its
self-referential `contributor_info_signature` field emptied (set to `null`)
before signing — so the signed text is independent of any stale signature
value — and only afterwards is the signature stored in the record, the
record persisted locally, and the record posted to the coordinator (the last
three observable events, in that order). -/
theorem claim_C6_info_record_signature (env : DoContributeEnv) (kp : KeyPair)
    (info0 : ContributionInfo) (clock : Nat → Nat) (k0 : Nat) :
    List.lookup "contributor_info_signature"
      (jsonTake (jsonOfInfo { (do_contribute env kp info0 clock k0).1 with
          contributor_info_signature := info0.contributor_info_signature })
        "contributor_info_signature") =
      some (JsonField.atom JsonAtom.null) ∧
    (∀ s, jsonTake (jsonOfInfo { (do_contribute env kp info0 clock k0).1 with
        contributor_info_signature := s }) "contributor_info_signature" =
      jsonTake (jsonOfInfo { (do_contribute env kp info0 clock k0).1 with
        contributor_info_signature := info0.contributor_info_signature })
        "contributor_info_signature") ∧
    (do_contribute env kp info0 clock k0).1.contributor_info_signature =
      Production.sign info0.public_key
        (renderObj (jsonTake
          (jsonOfInfo { (do_contribute env kp info0 clock k0).1 with
            contributor_info_signature := info0.contributor_info_signature })
          "contributor_info_signature")) ∧
    ((do_contribute env kp info0 clock k0).2).length = 16 ∧
    ((do_contribute env kp info0 clock k0).2).drop 13 =
      [Event.signEvt info0.public_key
          (renderObj (jsonTake
            (jsonOfInfo { (do_contribute env kp info0 clock k0).1 with
              contributor_info_signature := info0.contributor_info_signature })
            "contributor_info_signature")),
       Event.writeFile
         ("namada_contributor_info_round_" ++
           toString (do_contribute env kp info0 clock k0).1.ceremony_round ++ ".json")
         (FileContent.text (renderObj (jsonOfInfo (do_contribute env kp info0 clock k0).1))),
       Event.postContributionInfo (do_contribute env kp info0 clock k0).1] := by
  refine ⟨rfl, fun s => rfl, rfl, rfl, rfl⟩

end Phase1
